import Mathlib

/-!
Shallow embedding of the griptape ElevenLabs node library
(`src/elevenlabs/*.py`), covering the pieces of logic that the
specification's testable properties talk about:

* the error-response translators (`_parse_error_response` in
  `generate_music.py`, `text_to_speech.py`, `voice_changer.py`),
* the sound-effects response normalizer (`sound_effects.py`),
* the voice-design description padding and preview-text handling
  (`voice_design.py`),
* the list-voices paging logic (`list_voices.py`),
* the music duration-to-milliseconds conversion and the
  artifact-publishing steps (`generate_music.py`, `text_to_speech.py`).

Python strings are modelled as Lean `String`s (or `List Char` where the
logic is purely about code-point counts and slices; Python `len` and
slicing count code points, which matches `String.data` of the Lean
model).  Python exceptions are modelled by the `PyExc` type together
with `Except`.  JSON values produced by `json.loads` are modelled by
`JValue`; a failed `json.loads` (a `JSONDecodeError`) is modelled by
passing `none` for the parsed value.  Host services (static-file save,
stdlib base64 decoding) are opaque boundaries and enter as explicit
parameters.
-/

/-- Python exception kinds that occur in the embedded code paths. -/
inductive PyExc where
  | jsonDecodeError
  | keyError
  | typeError
  | attributeError
  | valueError
  | osError
  deriving DecidableEq, Repr

/-- Characters of `s` (Python `len`/slicing work on code points, as here). -/
def pyChars (s : String) : List Char := s.data

/-- Python `s[:n]` on a `str`: the first `n` code points. -/
def pyTake (s : String) (n : Nat) : String := ⟨s.data.take n⟩

/-- Python `s.lower()`, restricted to ASCII case mapping (all strings the
embedded code lowercases and searches are ASCII). -/
def pyLower (s : String) : String := ⟨s.data.map Char.toLower⟩

/-- Helper for substring search: does `needle` occur in `hay` (as lists)? -/
def strContainsAux (needle : List Char) : List Char → Bool
  | [] => needle.isEmpty
  | c :: rest => if needle.isPrefixOf (c :: rest) then true else strContainsAux needle rest

/-- Python `needle in hay` on strings (substring containment). -/
def pyInStr (hay needle : String) : Bool := strContainsAux needle.data hay.data

/-- JSON values as returned by Python's `json.loads` (numbers are modelled
as integers: every path in the embedded code treats numbers only through
truthiness and string formatting, where non-integer numbers behave the
same way). -/
inductive JValue where
  | str (s : String)
  | num (n : Int)
  | bool (b : Bool)
  | null
  | arr (xs : List JValue)
  | obj (fields : List (String × JValue))

/-- Python truthiness of a JSON value. -/
def jTruthy : JValue → Bool
  | .str s => s ≠ ""
  | .num n => n ≠ 0
  | .bool b => b
  | .null => false
  | .arr xs => !xs.isEmpty
  | .obj fs => !fs.isEmpty

/-- Python `v == k` where `k` is a string literal: true only when `v` is
that same string (JSON values of other types never equal a string). -/
def jEqStr (v : JValue) (k : String) : Bool :=
  match v with
  | .str s => s == k
  | _ => false

mutual

/-- Python `repr` of a JSON value (used by `str` on lists and dicts). -/
def pyRepr : JValue → String
  | .str s => "'" ++ s ++ "'"
  | .num n => toString n
  | .bool b => if b then "True" else "False"
  | .null => "None"
  | .arr xs => "[" ++ pyReprList xs ++ "]"
  | .obj fs => "\x7b" ++ pyReprFields fs ++ "\x7d"

/-- Comma-separated `repr`s of list elements. -/
def pyReprList : List JValue → String
  | [] => ""
  | [x] => pyRepr x
  | x :: y :: rest => pyRepr x ++ ", " ++ pyReprList (y :: rest)

/-- Comma-separated `repr`s of dict entries. -/
def pyReprFields : List (String × JValue) → String
  | [] => ""
  | [(k, v)] => "'" ++ k ++ "': " ++ pyRepr v
  | (k, v) :: e :: rest => "'" ++ k ++ "': " ++ pyRepr v ++ ", " ++ pyReprFields (e :: rest)

end

/-- Python `str(v)` as used by f-string interpolation of a JSON value. -/
def pyStr : JValue → String
  | .str s => s
  | v => pyRepr v

/-- Python `d.get(k, default)` on a parsed JSON object. -/
def jGet (fields : List (String × JValue)) (k : String) (dflt : JValue) : JValue :=
  (fields.lookup k).getD dflt

/-- Python `k in v` for a string `k` and a parsed JSON value `v`:
key membership for dicts, element membership for lists, substring test
for strings, and a `TypeError` for numbers, booleans and `None`. -/
def jContains (v : JValue) (k : String) : Except PyExc Bool :=
  match v with
  | .obj fs => .ok (fs.any (fun kv => kv.1 == k))
  | .arr xs => .ok (xs.any (fun x => jEqStr x k))
  | .str s => .ok (pyInStr s k)
  | _ => .error .typeError

/-- Python `v[k]` for a string key `k`: field access on dicts (a missing
key is a `KeyError`); a `TypeError` on every other value (string and
list indices must be integers). -/
def jIndex (v : JValue) (k : String) : Except PyExc JValue :=
  match v with
  | .obj fs =>
    match fs.lookup k with
    | some x => .ok x
    | none => .error .keyError
  | _ => .error .typeError

namespace ElevenLabsGenerateMusic

/-- The remediation hint appended by `generate_music._parse_error_response`
for music-terms gated errors (the `"\n\n"` plus the concatenated literal
from the source). -/
def musicTermsHint : String :=
  "\n\nTo use Eleven Music, you need to accept the additional terms at https://elevenlabs.io/music-terms. Please visit the link to accept the terms, then try again."

/-- `"music-terms" in s.lower() or "limited_access" in s.lower()`. -/
def hasMusicMarkers (s : String) : Bool :=
  pyInStr (pyLower s) "music-terms" || pyInStr (pyLower s) "limited_access"

/-- The part of `generate_music._parse_error_response` that runs after the
`detail` block falls through: the `error` field check, then the raw-text
music-terms check, then the raw-text summary. -/
def musicParseRest (ed : JValue) (responseText : String) (statusCode : Int) :
    Except PyExc String := do
  let hasErr ← jContains ed "error"
  if hasErr then
    let em ← jIndex ed "error"
    let msg := pyStr em
    if (match em with | .str s => hasMusicMarkers s | _ => false) then
      return s!"Error: {msg}" ++ musicTermsHint
    else
      return s!"Error: {msg}"
  else if hasMusicMarkers responseText then
    let summary := pyTake responseText 200
    return s!"API Error ({statusCode}): {summary}" ++ musicTermsHint
  else
    let summary := pyTake responseText 200
    return s!"API Error ({statusCode}): {summary}"

/-- The `try:` body of `generate_music._parse_error_response`.  `parsed`
is the outcome of `json.loads(response_text)` (`none` models a
`JSONDecodeError`). -/
def musicParseBody (parsed : Option JValue) (responseText : String) (statusCode : Int) :
    Except PyExc String := do
  match parsed with
  | none => throw .jsonDecodeError
  | some ed =>
    let hasDetail ← jContains ed "detail"
    if hasDetail then
      let detail ← jIndex ed "detail"
      match detail with
      | .obj dfs =>
        let st := jGet dfs "status" (.str "")
        let msg := jGet dfs "message" (.str "")
        if jTruthy st && jTruthy msg then
          let stS := pyStr st
          let msgS := pyStr msg
          if jEqStr st "limited_access" then
            match msg with
            | .str ms =>
              if pyInStr (pyLower ms) "music-terms" then
                return s!"{stS}: {msgS}" ++ musicTermsHint
              else
                return s!"{stS}: {msgS}"
            | _ => throw .attributeError
          else
            return s!"{stS}: {msgS}"
        else if jTruthy msg then
          let msgS := pyStr msg
          return s!"Error: {msgS}"
        else
          musicParseRest ed responseText statusCode
      | .str ds =>
        if hasMusicMarkers ds then
          return s!"Error: {ds}" ++ musicTermsHint
        else
          return s!"Error: {ds}"
      | _ => musicParseRest ed responseText statusCode
    else
      musicParseRest ed responseText statusCode

/-- The exception kinds caught by the `except (_json.JSONDecodeError,
KeyError, TypeError)` clause of `generate_music._parse_error_response`. -/
def musicCaught : PyExc → Bool
  | .jsonDecodeError | .keyError | .typeError => true
  | _ => false

/-- `generate_music._parse_error_response(response_text, status_code)`.
An `.error e` result models an exception escaping the function. -/
def parseErrorResponse (parsed : Option JValue) (responseText : String) (statusCode : Int) :
    Except PyExc String :=
  match musicParseBody parsed responseText statusCode with
  | .ok s => .ok s
  | .error e =>
    if musicCaught e then
      .ok (if hasMusicMarkers responseText then
            s!"API Error ({statusCode}): {pyTake responseText 200}" ++ musicTermsHint
          else
            s!"API Error ({statusCode}): Unable to parse error response")
    else
      .error e

end ElevenLabsGenerateMusic

namespace ElevenLabsTextToSpeech

/-- The `try:` body of `text_to_speech._parse_error_response`. -/
def ttsParseBody (parsed : Option JValue) (responseText : String) (statusCode : Int) :
    Except PyExc String := do
  match parsed with
  | none => throw .jsonDecodeError
  | some ed =>
    let hasDetail ← jContains ed "detail"
    if hasDetail then
      let detail ← jIndex ed "detail"
      match detail with
      | .obj dfs =>
        let st := jGet dfs "status" (.str "")
        let msg := jGet dfs "message" (.str "")
        if jTruthy st && jTruthy msg then
          let stS := pyStr st
          let msgS := pyStr msg
          return s!"{stS}: {msgS}"
        else if jTruthy msg then
          let msgS := pyStr msg
          return s!"Error: {msgS}"
        else
          ttsParseRest ed responseText statusCode
      | .str ds =>
        return s!"Error: {ds}"
      | _ => ttsParseRest ed responseText statusCode
    else
      ttsParseRest ed responseText statusCode
where
  /-- The code after the `detail` block: the `error` field check (only a
  string `error` returns early) and the raw-text summary. -/
  ttsParseRest (ed : JValue) (responseText : String) (statusCode : Int) :
      Except PyExc String := do
    let hasErr ← jContains ed "error"
    if hasErr then
      let em ← jIndex ed "error"
      match em with
      | .str s => return s!"Error: {s}"
      | _ =>
        let summary := pyTake responseText 200
        return s!"API Error ({statusCode}): {summary}"
    else
      let summary := pyTake responseText 200
      return s!"API Error ({statusCode}): {summary}"

/-- `text_to_speech._parse_error_response`: its `except Exception:`
clause catches everything, so the function is total and returns a
plain string. -/
def parseErrorResponse (parsed : Option JValue) (responseText : String) (statusCode : Int) :
    String :=
  match ttsParseBody parsed responseText statusCode with
  | .ok s => s
  | .error _ => s!"API Error ({statusCode}): Unable to parse error response"

end ElevenLabsTextToSpeech

namespace ElevenLabsVoiceChanger

/-- The `try:` body of `voice_changer._parse_error_response` (no string
`detail` branch, unlike the other two translators). -/
def vcParseBody (parsed : Option JValue) (responseText : String) (statusCode : Int) :
    Except PyExc String := do
  match parsed with
  | none => throw .jsonDecodeError
  | some ed =>
    let hasDetail ← jContains ed "detail"
    if hasDetail then
      let detail ← jIndex ed "detail"
      match detail with
      | .obj dfs =>
        let st := jGet dfs "status" (.str "")
        let msg := jGet dfs "message" (.str "")
        if jTruthy st && jTruthy msg then
          let stS := pyStr st
          let msgS := pyStr msg
          return s!"{stS}: {msgS}"
        else if jTruthy msg then
          let msgS := pyStr msg
          return s!"Error: {msgS}"
        else
          vcParseRest ed responseText statusCode
      | _ => vcParseRest ed responseText statusCode
    else
      vcParseRest ed responseText statusCode
where
  /-- The `error` field check (`f"Error: {error_data['error']}"` for any
  value type) and the raw-text summary. -/
  vcParseRest (ed : JValue) (responseText : String) (statusCode : Int) :
      Except PyExc String := do
    let hasErr ← jContains ed "error"
    if hasErr then
      let em ← jIndex ed "error"
      let msg := pyStr em
      return s!"Error: {msg}"
    else
      let summary := pyTake responseText 200
      return s!"API Error ({statusCode}): {summary}"

/-- The exception kinds caught by `voice_changer._parse_error_response`'s
`except (_json.JSONDecodeError, KeyError, TypeError)` clause. -/
def vcCaught : PyExc → Bool
  | .jsonDecodeError | .keyError | .typeError => true
  | _ => false

/-- `voice_changer._parse_error_response(response_text, status_code)`. -/
def parseErrorResponse (parsed : Option JValue) (responseText : String) (statusCode : Int) :
    Except PyExc String :=
  match vcParseBody parsed responseText statusCode with
  | .ok s => .ok s
  | .error e =>
    if vcCaught e then
      .ok s!"API Error ({statusCode}): Unable to parse error response"
    else
      .error e

end ElevenLabsVoiceChanger

/-- A non-JSON Python value as it appears in SDK responses: a string, a
byte buffer (`bytes`/`bytearray`), `None`, or some other object. -/
inductive PyVal where
  | str (s : String)
  | bytes (b : List Nat)
  | pyNone
  | other

/-- Python truthiness of such a value (`other` models truthy objects). -/
def pyValTruthy : PyVal → Bool
  | .str s => s ≠ ""
  | .bytes b => !b.isEmpty
  | .pyNone => false
  | .other => true

/-- Python `a or b`. -/
def pyOrVal (a b : PyVal) : PyVal := if pyValTruthy a then a else b

/-- Python `d.get(k)` on a dict of `PyVal`s (`None` when missing). -/
def pyDictGet (fields : List (String × PyVal)) (k : String) : PyVal :=
  (fields.lookup k).getD .pyNone

namespace ElevenLabsSoundEffects

/-- One chunk of an iterable SDK response: byte-typed or not. -/
inductive SfxChunk where
  | bytes (b : List Nat)
  | nonbytes

/-- The response shapes `sound_effects._run` dispatches on: raw bytes,
a dict, an iterable of chunks, or an object inspected through its
`audio` attribute (`.pyNone` when the attribute is absent). -/
inductive SfxResponse where
  | bytes (b : List Nat)
  | dict (fields : List (String × PyVal))
  | iter (chunks : List SfxChunk)
  | obj (audioAttr : PyVal)

/-- `sound_effects._join_iterable_bytes`: concatenate the byte-typed
chunks in order, skipping the rest; `None` when no byte chunk arrived
(`b"".join(chunks) if chunks else None`). -/
def joinIterableBytes (chunks : List SfxChunk) : Option (List Nat) :=
  let bs := chunks.filterMap (fun c => match c with | .bytes b => some b | .nonbytes => none)
  if bs.isEmpty then none else some bs.flatten

/-- The response-normalization step of `sound_effects._run`, reduced to
the byte buffer it extracts.  `b64decode` is Python's
`base64.b64decode` (the code catches its exceptions and keeps `None`,
modelled by `Option`).  Bytes pass through unchanged; a dict is read
through `audio_base_64`/`audio_base64`; an iterable is joined; any
other object is inspected through its `audio` attribute, accepting raw
bytes or a base64 string. -/
def normalizeResponse (b64decode : String → Option (List Nat)) :
    SfxResponse → Option (List Nat)
  | .bytes b => some b
  | .dict fields =>
    match pyOrVal (pyDictGet fields "audio_base_64") (pyDictGet fields "audio_base64") with
    | .str s => b64decode s
    | _ => none
  | .iter chunks => joinIterableBytes chunks
  | .obj audioAttr =>
    match audioAttr with
    | .bytes b => some b
    | .str s => b64decode s
    | _ => none

end ElevenLabsSoundEffects

namespace ElevenLabsDesignVoice

/-- The filler appended to a too-short voice description
(`f"{description}. Natural, clear, expressive voice."`). -/
def descriptionFiller : List Char := ". Natural, clear, expressive voice.".data

/-- The `while len(fallback) < 20: fallback += " voice"` loop of
`voice_design._run`. -/
def padLoop (s : List Char) : List Char :=
  if s.length < 20 then padLoop (s ++ " voice".data) else s
termination_by 20 - s.length
decreasing_by
  simp only [List.length_append, show (" voice".data).length = 6 from rfl]
  omega

/-- The whole short-description branch of `voice_design._run`
(lines 264-269): append the filler, pad with `" voice"` while still
short, then slice to the 1000-character maximum. -/
def expandShortDescription (d : List Char) : List Char :=
  (padLoop (d ++ descriptionFiller)).take 1000

/-- The full description coercion of `voice_design._run` (lines 263-272):
expand when below the 20-character minimum, truncate when above the
1000-character maximum, else keep. -/
def coerceDescription (d : List Char) : List Char :=
  if d.length < 20 then expandShortDescription d
  else if d.length > 1000 then d.take 1000
  else d

/-- The preview-text filter of `voice_design._run` (lines 286-295):
empty or shorter than 100 characters is dropped (treated as absent),
longer than 1000 characters is truncated, otherwise kept. -/
def normalizePreviewText : Option (List Char) → Option (List Char)
  | none => none
  | some t =>
    if t.length = 0 then none
    else if t.length < 100 then none
    else if t.length > 1000 then some (t.take 1000)
    else some t

/-- The payload text gate of `voice_design._run` (lines 346-352), run
before any request is sent: include the (filtered) preview text when
present, else fall back to `auto_generate_text`, else raise
`ValueError`.  The result is the payload's `text` field (before the
ASCII coercion, which maps present text to present text). -/
def previewTextPayload (previewText : Option (List Char)) (autoGenerateText : Bool) :
    Except PyExc (Option (List Char)) :=
  match normalizePreviewText previewText with
  | some t => .ok (some t)
  | none => if autoGenerateText then .ok none else .error .valueError

end ElevenLabsDesignVoice

namespace ElevenLabsListVoices

/-- The fields of one voice entry that `list_voices._run` reads
(each may be absent in the vendor payload). -/
structure VoiceRecord where
  voice_id : Option String
  name : Option String

/-- `PAGE_SIZE` from `list_voices.py`. -/
def PAGE_SIZE : Nat := 10

/-- `FETCH_LIMIT` from `list_voices.py`. -/
def FETCH_LIMIT : Nat := 100

/-- `int(self.get_parameter_value("page") or 1)`: a `0` page value is
falsy in Python and becomes `1`. -/
def coercePageInput (p : Int) : Int := if p = 0 then 1 else p

/-- `total_pages = max(1, math.ceil(min(total, FETCH_LIMIT) / PAGE_SIZE))`
(ceiling division on naturals). -/
def totalPages (voices : List VoiceRecord) : Nat :=
  max 1 ((min voices.length FETCH_LIMIT + (PAGE_SIZE - 1)) / PAGE_SIZE)

/-- `page = max(1, min(page, total_pages))`. -/
def clampPage (voices : List VoiceRecord) (p : Int) : Int :=
  max 1 (min (coercePageInput p) (totalPages voices))

/-- `start = (page - 1) * PAGE_SIZE` for the clamped page. -/
def pageStart (voices : List VoiceRecord) (p : Int) : Nat :=
  ((clampPage voices p - 1) * 10).toNat

/-- `page_items = voices[start:end]` with `end = start + PAGE_SIZE`. -/
def pageItems (voices : List VoiceRecord) (p : Int) : List VoiceRecord :=
  (voices.drop (pageStart voices p)).take 10

/-- The `voice_id_i` output slot (1-based `i`): the loop over
`enumerate(page_items, start=1)` assigns `v["voice_id"]` to slot `idx`;
slots the loop does not reach keep the cleared value `None`. -/
def slotVoiceId (voices : List VoiceRecord) (p : Int) (i : Nat) : Option String :=
  match (pageItems voices p)[i - 1]? with
  | some v => v.voice_id
  | none => none

/-- The `name_i` slot: a populated slot gets `name or ""`, a cleared
slot keeps `""`. -/
def slotName (voices : List VoiceRecord) (p : Int) (i : Nat) : String :=
  match (pageItems voices p)[i - 1]? with
  | some v => v.name.getD ""
  | none => ""

end ElevenLabsListVoices

namespace ElevenLabsGenerateMusic

/-- `MIN_MUSIC_LENGTH_SEC` from `generate_music.py` (declared as a class
constant; `_run` never applies it to the duration). -/
def MIN_MUSIC_LENGTH_SEC : ℚ := 10

/-- `MAX_MUSIC_LENGTH_SEC` from `generate_music.py` (likewise unused by
`_run`'s conversion). -/
def MAX_MUSIC_LENGTH_SEC : ℚ := 300

/-- Python `int()` on an exact numeric value: truncation toward zero
(the duration values at issue, such as `400.0 * 1000`, are exactly
representable, so the rational model is faithful). -/
def pyInt (q : ℚ) : Int := Int.tdiv q.num q.den

/-- The `music_length_ms` computation of `generate_music._run`
(lines 176-179): `int(duration_seconds * 1000)` when
`use_specific_length` is set and a duration is present, else `None`.
No clamping is applied. -/
def musicLengthMs (useLength : Bool) (durationSeconds : Option ℚ) : Option Int :=
  if useLength then durationSeconds.map (fun d => pyInt (d * 1000)) else none

end ElevenLabsGenerateMusic

/-- The base64 alphabet. -/
def b64Alphabet : List Char :=
  "ABCDEFGHIJKLMNOPQRSTUVWXYZabcdefghijklmnopqrstuvwxyz0123456789+/".data

/-- The base64 digit for a 6-bit group. -/
def b64Char (n : Nat) : Char := b64Alphabet.getD n '='

/-- Standard base64 encoding of a byte list (bytes are `< 256`), as
performed by Python's `base64.b64encode(...).decode("ascii")`. -/
def b64EncodeChars : List Nat → List Char
  | b0 :: b1 :: b2 :: rest =>
    b64Char (b0 / 4 % 64) :: b64Char ((b0 % 4) * 16 + b1 / 16) ::
      b64Char ((b1 % 16) * 4 + b2 / 64) :: b64Char (b2 % 64) :: b64EncodeChars rest
  | [b0, b1] =>
    [b64Char (b0 / 4 % 64), b64Char ((b0 % 4) * 16 + b1 / 16), b64Char ((b1 % 16) * 4), '=']
  | [b0] =>
    [b64Char (b0 / 4 % 64), b64Char ((b0 % 4) * 16), '=', '=']
  | [] => []

/-- `base64.b64encode(b).decode("ascii")`. -/
def b64encode (b : List Nat) : String := ⟨b64EncodeChars b⟩

/-- An `AudioUrlArtifact(value=..., name=...)`. -/
structure AudioUrlArtifact where
  value : String
  name : String

namespace ElevenLabsGenerateMusic

/-- The extension guess of `generate_music._run`: `"wav"` for `pcm*`
formats, else `"mp3"`. -/
def extFor (outputFormat : String) : String :=
  if outputFormat.startsWith "pcm" then "wav"
  else if outputFormat.startsWith "mp3" then "mp3"
  else "mp3"

/-- The MIME guess of the data-URL fallback:
`"audio/wav" if output_format.startswith("pcm") else "audio/mpeg"`. -/
def mimeFor (outputFormat : String) : String :=
  if outputFormat.startsWith "pcm" then "audio/wav" else "audio/mpeg"

/-- The artifact-publishing step of `generate_music._run`
(lines 231-255).  `t` is `int(time.time())`; `save` is the outcome of
the host's `StaticFilesManager().save_static_file` call (an opaque
boundary).  On save success the artifact wraps the returned durable
URL; on any save exception the fallback builds a base64 data URL from
the same bytes (pure in-memory work that cannot fail, so the inner
`except` never fires); with no bytes no artifact is produced. -/
def publishAudio (t : Nat) (respBytes : List Nat) (outputFormat : String)
    (save : Except PyExc String) : Option AudioUrlArtifact :=
  if respBytes.isEmpty then none
  else
    match save with
    | .ok staticUrl => some ⟨staticUrl, s!"elevenlabs_music_{t}.{extFor outputFormat}"⟩
    | .error _ =>
      some ⟨"data:" ++ (mimeFor outputFormat ++ (";base64," ++ b64encode respBytes)), "music"⟩

end ElevenLabsGenerateMusic

namespace ElevenLabsTextToSpeech

/-- `text_to_speech._handle_response` (lines 677-696), given the
response bytes and the outcome of the durable-storage save.  The first
component is the `audio` output value (the artifact's URL, `none` for a
null artifact); the second records whether the exception is re-raised.
On a save failure the node sets the output to `None` and re-raises:
there is no data-URL fallback in this node. -/
def handleResponse (_responseBytes : List Nat) (save : Except PyExc String) :
    Option String × Except PyExc Unit :=
  match save with
  | .ok savedUrl => (some savedUrl, .ok ())
  | .error e => (none, .error e)

end ElevenLabsTextToSpeech

/-- A `detail` envelope whose `message` is a (truthy) number instead of a
string, e.g. the body `{"detail": {"status": "limited_access",
"message": 1}}` — written with the braces escaped. -/
def nonStringMessageDetail : JValue :=
  JValue.obj [("detail", JValue.obj
    [("status", JValue.str "limited_access"), ("message", JValue.num 1)])]

/-- The raw response text corresponding to `nonStringMessageDetail`. -/
def nonStringMessageText : String :=
  "\x7b\"detail\": \x7b\"status\": \"limited_access\", \"message\": 1\x7d\x7d"

/-- The parsed body
`{"detail": {"status": "limited_access", "message": "music-terms required"}}`. -/
def musicTermsDetail : JValue :=
  JValue.obj [("detail", JValue.obj
    [("status", JValue.str "limited_access"), ("message", JValue.str "music-terms required")])]

/-- The raw response text corresponding to `musicTermsDetail`. -/
def musicTermsText : String :=
  "\x7b\"detail\":\x7b\"status\":\"limited_access\",\"message\":\"music-terms required\"\x7d\x7d"

/-- A one-element voice list used to instantiate the paging theorem. -/
def sampleVoices : List ElevenLabsListVoices.VoiceRecord :=
  [{ voice_id := some "v0", name := some "Alice" }]

/-- Every run of the `while len < 20` padding loop ends with a string of
at least 20 characters. -/
theorem padLoop_length_ge (s : List Char) : 20 ≤ (ElevenLabsDesignVoice.padLoop s).length := by
  induction s using ElevenLabsDesignVoice.padLoop.induct with
  | case1 s h ih =>
    rw [ElevenLabsDesignVoice.padLoop]
    simp only [if_pos h]
    exact ih
  | case2 s h =>
    rw [ElevenLabsDesignVoice.padLoop]
    simp only [if_neg h]
    omega

/-- C1 (counterexample): the claim asserts that in every node that
receives audio bytes, a failing durable-storage save still yields a
usable data-URL artifact.  The text-to-speech node's `_handle_response`
refutes it: with the non-empty byte buffer `[1, 2, 3]` and a save that
raises, the node's `audio` output is the null artifact and the
exception is re-raised — no data-URL fallback exists in that node. -/
theorem c1_tts_no_fallback_counterexample :
    ElevenLabsTextToSpeech.handleResponse [1, 2, 3] (.error .osError) =
      (none, .error .osError) := rfl

/-- C1 (amended): for every non-empty byte buffer and output-format
string, the music-generation node's artifact-publishing step returns a
non-null AudioArtifact whose URL is the durable-storage URL on save
success and a `data:` URL when the save raises; the text-to-speech
node, by contrast, has no fallback: when its durable-storage save
raises it outputs a null artifact and re-raises the exception. -/
theorem c1_artifact_publish_amended (t : Nat) (b : List Nat) (fmt : String)
    (save : Except PyExc String) (hb : b ≠ []) :
    (∃ a, ElevenLabsGenerateMusic.publishAudio t b fmt save = some a ∧
       ((∃ u, save = .ok u ∧ a.value = u) ∨ ∃ rest, a.value = "data:" ++ rest)) ∧
    (∀ e : PyExc, ElevenLabsTextToSpeech.handleResponse b (.error e) = (none, .error e)) := by
  obtain ⟨x, xs, rfl⟩ : ∃ x xs, b = x :: xs := by
    cases b with
    | nil => exact absurd rfl hb
    | cons x xs => exact ⟨x, xs, rfl⟩
  refine ⟨?_, fun e => rfl⟩
  cases save with
  | ok u => exact ⟨⟨u, _⟩, rfl, Or.inl ⟨u, rfl, rfl⟩⟩
  | error e => exact ⟨⟨_, _⟩, rfl, Or.inr ⟨_, rfl⟩⟩

/-- C1 (witness): the amended theorem instantiated at the one-byte
buffer `[1]`, format `"mp3_44100_128"` and a failing save. -/
theorem c1_artifact_publish_amended_witness :
    ([1] : List Nat) ≠ [] ∧
    ((∃ a, ElevenLabsGenerateMusic.publishAudio 0 [1] "mp3_44100_128" (.error .osError) = some a ∧
        ((∃ u, (Except.error .osError : Except PyExc String) = .ok u ∧ a.value = u) ∨
         ∃ rest, a.value = "data:" ++ rest)) ∧
     (∀ e : PyExc, ElevenLabsTextToSpeech.handleResponse [1] (.error e) = (none, .error e))) :=
  ⟨by decide, c1_artifact_publish_amended 0 [1] "mp3_44100_128" (.error .osError) (by decide)⟩

/-- C2 (counterexample): the claim asserts that a 400.0-second duration
is clamped to the vendor bound so that `music_length_ms` equals 300000.
The request builder applies no clamp: `int(400.0 * 1000)` is sent. -/
theorem c2_duration_not_clamped_counterexample :
    ElevenLabsGenerateMusic.musicLengthMs true (some 400) ≠ some 300000 := by
  have h : ElevenLabsGenerateMusic.musicLengthMs true (some 400) = some 400000 := by
    simp [ElevenLabsGenerateMusic.musicLengthMs, ElevenLabsGenerateMusic.pyInt]
    norm_num
  rw [h]
  simp

/-- C2 (amended): a duration input of 400.0 seconds with
`use_specific_length` set produces `music_length_ms = 400000` in the
request payload: `_run` converts seconds to milliseconds by
`int(duration_seconds * 1000)` without clamping to the vendor bound
(the class constants for the [10, 300] second range only parameterize
the input slider). -/
theorem c2_duration_ms_amended :
    ElevenLabsGenerateMusic.musicLengthMs true (some 400) = some 400000 := by
  simp [ElevenLabsGenerateMusic.musicLengthMs, ElevenLabsGenerateMusic.pyInt]
  norm_num

/-- C3 (counterexample): the claim asserts that when JSON parsing fails
the translator returns the truncated raw-text summary prefixed with the
status code (the same fallback as the parse-success/no-field case).
At status 400 and the unparseable text `"boom"`, both the voice-changer
and the music translators instead return the fixed string
`"API Error (400): Unable to parse error response"`, which differs from
the raw-text summary `"API Error (400): boom"`. -/
theorem c3_parse_failure_counterexample :
    ElevenLabsVoiceChanger.parseErrorResponse none "boom" 400 =
      .ok "API Error (400): Unable to parse error response" ∧
    ElevenLabsGenerateMusic.parseErrorResponse none "boom" 400 =
      .ok "API Error (400): Unable to parse error response" ∧
    ("API Error (400): Unable to parse error response" : String) ≠
      "API Error (400): " ++ pyTake "boom" 200 :=
  ⟨rfl, rfl, by decide⟩

/-- C3 (amended): when JSON parsing fails, the translators return
`"API Error (<status>): Unable to parse error response"` — except that
the music translator, when the raw text contains a music-terms marker,
returns the truncated raw text with the remediation hint appended.  The
truncated raw-text summary alone is produced only on the parse-success
path when no recognized field exists. -/
theorem c3_parse_failure_amended (text : String) (status : Int) :
    ElevenLabsVoiceChanger.parseErrorResponse none text status =
      .ok s!"API Error ({status}): Unable to parse error response" ∧
    ElevenLabsTextToSpeech.parseErrorResponse none text status =
      s!"API Error ({status}): Unable to parse error response" ∧
    ElevenLabsGenerateMusic.parseErrorResponse none text status =
      .ok (if ElevenLabsGenerateMusic.hasMusicMarkers text then
            s!"API Error ({status}): {pyTake text 200}" ++ ElevenLabsGenerateMusic.musicTermsHint
          else s!"API Error ({status}): Unable to parse error response") :=
  ⟨rfl, rfl, rfl⟩

/-- C4 (code bug): the claim — matching the translator's evident intent
and the text-to-speech sibling's catch-all — says
`_parse_error_response` never raises for any response text, including
objects with unexpected field types.  The music translator's except
clause only catches `JSONDecodeError`, `KeyError` and `TypeError`, so
for the body `{"detail": {"status": "limited_access", "message": 1}}`
the call `message.lower()` on the non-string message raises an
uncaught `AttributeError`.  The text-to-speech version handles the same
input and returns a non-empty string. -/
theorem c4_music_translator_raises :
    ElevenLabsGenerateMusic.parseErrorResponse (some nonStringMessageDetail)
      nonStringMessageText 400 = .error .attributeError ∧
    ElevenLabsTextToSpeech.parseErrorResponse (some nonStringMessageDetail)
      nonStringMessageText 400 = "limited_access: 1" :=
  ⟨rfl, rfl⟩

/-- C5: for every voice description shorter than the 20-character vendor
minimum, the padding logic produces a string of length at least 20, and
truncating the padded string to the 1000-character vendor maximum still
leaves at least 20 characters (and is exactly what `_run` assigns). -/
theorem c5_short_description_padding (d : List Char) (h : d.length < 20) :
    20 ≤ (ElevenLabsDesignVoice.padLoop (d ++ ElevenLabsDesignVoice.descriptionFiller)).length ∧
    20 ≤ (ElevenLabsDesignVoice.expandShortDescription d).length ∧
    ElevenLabsDesignVoice.coerceDescription d = ElevenLabsDesignVoice.expandShortDescription d := by
  refine ⟨padLoop_length_ge _, ?_, by simp [ElevenLabsDesignVoice.coerceDescription, h]⟩
  have h1 := padLoop_length_ge (d ++ ElevenLabsDesignVoice.descriptionFiller)
  unfold ElevenLabsDesignVoice.expandShortDescription
  rw [List.length_take]
  omega

/-- C5 (witness): the padding theorem instantiated at the two-character
description `"hi"`. -/
theorem c5_short_description_padding_witness :
    "hi".data.length < 20 ∧
    (20 ≤ (ElevenLabsDesignVoice.padLoop
        ("hi".data ++ ElevenLabsDesignVoice.descriptionFiller)).length ∧
     20 ≤ (ElevenLabsDesignVoice.expandShortDescription "hi".data).length ∧
     ElevenLabsDesignVoice.coerceDescription "hi".data =
       ElevenLabsDesignVoice.expandShortDescription "hi".data) :=
  ⟨by decide, c5_short_description_padding "hi".data (by decide)⟩

/-- C6: the sound-effects response normalizer is the identity on
already-normalized byte input — a `bytes`/`bytearray` response yields
exactly those bytes, for every base64 decoder. -/
theorem c6_normalize_bytes_identity (b64decode : String → Option (List Nat)) (b : List Nat) :
    ElevenLabsSoundEffects.normalizeResponse b64decode (.bytes b) = some b := rfl

/-- C7: when no audio is recoverable, the sound-effects normalizer
yields `none` rather than raising: a dict whose base64 audio field
fails to decode (the decode failure is caught and treated as no audio),
and an iterable containing no byte-typed chunks, both produce `none`. -/
theorem c7_unrecoverable_audio_none (b64decode : String → Option (List Nat)) :
    (∀ fields s,
       pyOrVal (pyDictGet fields "audio_base_64") (pyDictGet fields "audio_base64") = .str s →
       b64decode s = none →
       ElevenLabsSoundEffects.normalizeResponse b64decode (.dict fields) = none) ∧
    (∀ chunks : List ElevenLabsSoundEffects.SfxChunk, (∀ c ∈ chunks, c = .nonbytes) →
       ElevenLabsSoundEffects.normalizeResponse b64decode (.iter chunks) = none) := by
  constructor
  · intro fields s hlook hdec
    simp [ElevenLabsSoundEffects.normalizeResponse, hlook, hdec]
  · intro chunks hall
    have hnil : chunks.filterMap
        (fun c => match c with
          | ElevenLabsSoundEffects.SfxChunk.bytes b => some b
          | ElevenLabsSoundEffects.SfxChunk.nonbytes => none) = [] := by
      rw [List.filterMap_eq_nil_iff]
      intro c hc
      rw [hall c hc]
    simp [ElevenLabsSoundEffects.normalizeResponse, ElevenLabsSoundEffects.joinIterableBytes,
      hnil]

/-- C7 (witness): a failing decoder with a dict carrying a base64 field,
and a one-chunk iterable with no byte chunk. -/
theorem c7_unrecoverable_audio_none_witness :
    ElevenLabsSoundEffects.normalizeResponse (fun _ => none)
      (.dict [("audio_base_64", .str "x")]) = none ∧
    ElevenLabsSoundEffects.normalizeResponse (fun _ => none) (.iter [.nonbytes]) = none :=
  ⟨(c7_unrecoverable_audio_none (fun _ => none)).1 [("audio_base_64", .str "x")] "x" rfl rfl,
   (c7_unrecoverable_audio_none (fun _ => none)).2 [.nonbytes]
     (fun c hc => by
        simp only [List.mem_singleton] at hc
        exact hc)⟩

/-- C8: for an HTTP 400 response with body
`{"detail": {"status": "limited_access", "message": "music-terms required"}}`,
the music translator returns a string containing the status, the
message, and the remediation hint naming
`https://elevenlabs.io/music-terms`. -/
theorem c8_music_terms_gate :
    ElevenLabsGenerateMusic.parseErrorResponse (some musicTermsDetail) musicTermsText 400 =
      .ok ("limited_access: music-terms required" ++ ElevenLabsGenerateMusic.musicTermsHint) ∧
    pyInStr ("limited_access: music-terms required" ++ ElevenLabsGenerateMusic.musicTermsHint)
      "limited_access" = true ∧
    pyInStr ("limited_access: music-terms required" ++ ElevenLabsGenerateMusic.musicTermsHint)
      "music-terms required" = true ∧
    pyInStr ("limited_access: music-terms required" ++ ElevenLabsGenerateMusic.musicTermsHint)
      "https://elevenlabs.io/music-terms" = true :=
  ⟨rfl, by decide, by decide, by decide⟩

/-- C9: for every fetched voice list and integer page input, the
list-voices node clamps the page into
`[1, max(1, ceil(min(|V|, 100) / 10))]`, populates slot `i` (1-based,
`i ≤ 10`) from the voice at index `(page - 1) * 10 + i - 1` exactly
when that index exists, and leaves the remaining slots with a `None`
voice id and an empty name; no slot reads an out-of-range index. -/
theorem c9_list_voices_paging (voices : List ElevenLabsListVoices.VoiceRecord) (p : Int)
    (i : Nat) (h1 : 1 ≤ i) (h2 : i ≤ 10) :
    (1 ≤ ElevenLabsListVoices.clampPage voices p ∧
     ElevenLabsListVoices.clampPage voices p ≤ (ElevenLabsListVoices.totalPages voices : Int)) ∧
    ElevenLabsListVoices.slotVoiceId voices p i =
      (match voices[ElevenLabsListVoices.pageStart voices p + (i - 1)]? with
        | some v => v.voice_id | none => none) ∧
    ElevenLabsListVoices.slotName voices p i =
      (match voices[ElevenLabsListVoices.pageStart voices p + (i - 1)]? with
        | some v => v.name.getD "" | none => "") := by
  have hi : i - 1 < 10 := by omega
  refine ⟨?_, ?_, ?_⟩
  · simp only [ElevenLabsListVoices.clampPage, ElevenLabsListVoices.totalPages]
    omega
  · simp only [ElevenLabsListVoices.slotVoiceId, ElevenLabsListVoices.pageItems]
    rw [List.getElem?_take_of_lt hi, List.getElem?_drop]
  · simp only [ElevenLabsListVoices.slotName, ElevenLabsListVoices.pageItems]
    rw [List.getElem?_take_of_lt hi, List.getElem?_drop]

/-- C9 (witness): the paging theorem instantiated at a one-voice list,
page 1, slot 1. -/
theorem c9_list_voices_paging_witness :
    1 ≤ 1 ∧ 1 ≤ 10 ∧
    ((1 ≤ ElevenLabsListVoices.clampPage sampleVoices 1 ∧
      ElevenLabsListVoices.clampPage sampleVoices 1 ≤
        (ElevenLabsListVoices.totalPages sampleVoices : Int)) ∧
     ElevenLabsListVoices.slotVoiceId sampleVoices 1 1 =
       (match sampleVoices[ElevenLabsListVoices.pageStart sampleVoices 1 + (1 - 1)]? with
         | some v => v.voice_id | none => none) ∧
     ElevenLabsListVoices.slotName sampleVoices 1 1 =
       (match sampleVoices[ElevenLabsListVoices.pageStart sampleVoices 1 + (1 - 1)]? with
         | some v => v.name.getD "" | none => "")) :=
  ⟨le_refl 1, by omega, c9_list_voices_paging sampleVoices 1 1 (le_refl 1) (by omega)⟩

/-- C10: in the voice-design node, a preview text that is empty or
shorter than 100 characters is treated as absent (not padded), one
longer than 1000 characters is truncated to 1000, and the payload gate
— which runs before any request is sent — raises `ValueError` exactly
when the effective preview text is absent and `auto_generate_text` is
false. -/
theorem c10_preview_text_policy :
    (∀ t : List Char, t.length < 100 →
       ElevenLabsDesignVoice.normalizePreviewText (some t) = none) ∧
    (∀ t : List Char, t.length > 1000 →
       ElevenLabsDesignVoice.normalizePreviewText (some t) = some (t.take 1000)) ∧
    (∀ (pt : Option (List Char)) (auto : Bool),
       ElevenLabsDesignVoice.previewTextPayload pt auto = .error .valueError ↔
         (ElevenLabsDesignVoice.normalizePreviewText pt = none ∧ auto = false)) := by
  refine ⟨?_, ?_, ?_⟩
  · intro t h
    simp only [ElevenLabsDesignVoice.normalizePreviewText]
    rcases Nat.eq_zero_or_pos t.length with h0 | h0
    · simp [h0]
    · rw [if_neg (by omega), if_pos (by omega)]
  · intro t h
    simp only [ElevenLabsDesignVoice.normalizePreviewText]
    rw [if_neg (by omega), if_neg (by omega), if_pos (by omega)]
  · intro pt auto
    cases hn : ElevenLabsDesignVoice.normalizePreviewText pt with
    | some t => simp [ElevenLabsDesignVoice.previewTextPayload, hn]
    | none =>
      cases auto <;> simp [ElevenLabsDesignVoice.previewTextPayload, hn]

/-- C10 (witness): the policy instantiated at a short text, an
over-long text, and the absent-text/auto-off gate. -/
theorem c10_preview_text_policy_witness :
    "short".data.length < 100 ∧
    ElevenLabsDesignVoice.normalizePreviewText (some "short".data) = none ∧
    (List.replicate 1001 'a').length > 1000 ∧
    ElevenLabsDesignVoice.normalizePreviewText (some (List.replicate 1001 'a')) =
      some ((List.replicate 1001 'a').take 1000) ∧
    (ElevenLabsDesignVoice.previewTextPayload none false = .error .valueError ↔
      (ElevenLabsDesignVoice.normalizePreviewText none = none ∧ false = false)) :=
  ⟨by decide, c10_preview_text_policy.1 "short".data (by decide),
   by rw [List.length_replicate]; omega,
   c10_preview_text_policy.2.1 (List.replicate 1001 'a') (by rw [List.length_replicate]; omega),
   c10_preview_text_policy.2.2 none false⟩
